import Mathlib

/-!
Verification of the torrentium-relay node (src/main.go) against its
natural-language specification.

The repository is a single Go file containing two successive drafts of the
same program; the second draft (lines 80-223) is the refined one that all of
the identity/address features live in, and it is the draft modelled here
(the first draft's status-server port binding and final select are also
modelled where a claim cites them).

Modelling conventions:
  * Environment variables, the key file's contents, and the results of the
    external libp2p/crypto library calls (key generation, host construction,
    relay activation) are inputs, collected in the `Env` structure.
  * The external libp2p crypto library (`crypto.UnmarshalPrivateKey`,
    `crypto.MarshalPrivateKey`, and the peer-ID derivation performed by
    `libp2p.New(libp2p.Identity(priv))` followed by `h.ID().String()`) is
    abstract: it is a parameter `Libp2pCrypto PrivKey` of the development.
  * `base64.StdEncoding` from Go's `encoding/base64` is implemented
    concretely (decode ignores CR/LF, requires 4-character quanta with
    `=` padding only in the final quantum, standard alphabet).
  * Log output (`log.Println` / `log.Printf`) is modelled as the list of
    emitted lines, in order.
  * Bytes are `Nat` (each < 256 for real inputs; arithmetic below never
    relies on the bound).
-/

namespace TorrentiumRelay

/-- Value of a base64 digit in the standard alphabet (`A-Z a-z 0-9 + /`),
or `none` for any other character.  Mirrors Go's `base64.StdEncoding`
decode map. -/
def base64DigitVal (c : Char) : Option Nat :=
  if 'A' ≤ c ∧ c ≤ 'Z' then some (c.toNat - 65)
  else if 'a' ≤ c ∧ c ≤ 'z' then some (c.toNat - 97 + 26)
  else if '0' ≤ c ∧ c ≤ '9' then some (c.toNat - 48 + 52)
  else if c = '+' then some 62
  else if c = '/' then some 63
  else none

/-- Decode a run of 4-character base64 quanta (Go `base64.StdEncoding`):
every quantum is 4 characters; `=` padding may appear only as the last one
or two characters of the final quantum.  Returns the decoded bytes, or
`none` on any malformed input (Go's `CorruptInputError`). -/
def base64DecodeQuanta : List Char → Option (List Nat)
  | [] => some []
  | c1 :: c2 :: c3 :: c4 :: rest =>
    match base64DigitVal c1, base64DigitVal c2 with
    | some a, some b =>
      if c3 = '=' then
        if c4 = '=' ∧ rest = [] then some [a * 4 + b / 16] else none
      else
        match base64DigitVal c3 with
        | some x =>
          if c4 = '=' then
            if rest = [] then some [a * 4 + b / 16, b % 16 * 16 + x / 4]
            else none
          else
            match base64DigitVal c4 with
            | some y =>
              (base64DecodeQuanta rest).map
                (fun tl => (a * 4 + b / 16) :: (b % 16 * 16 + x / 4) ::
                  (x % 4 * 64 + y) :: tl)
            | none => none
        | none => none
    | _, _ => none
  | _ => none

/-- Go `base64.StdEncoding.DecodeString`: CR and LF are ignored anywhere in
the input; the rest must be whole 4-character quanta. -/
def base64StdDecode (s : String) : Option (List Nat) :=
  base64DecodeQuanta (s.data.filter (fun c => !(c == '\r' || c == '\n')))

/-- The standard base64 alphabet, by digit value. -/
def base64Alphabet : List Char :=
  "ABCDEFGHIJKLMNOPQRSTUVWXYZabcdefghijklmnopqrstuvwxyz0123456789+/".data

/-- Character for a 6-bit digit value. -/
def base64Digit (n : Nat) : Char := base64Alphabet.getD n 'A'

/-- Encode bytes into base64 quanta with `=` padding
(Go `base64.StdEncoding`). -/
def base64EncodeQuanta : List Nat → List Char
  | [] => []
  | [b1] => [base64Digit (b1 / 4), base64Digit (b1 % 4 * 16), '=', '=']
  | [b1, b2] => [base64Digit (b1 / 4), base64Digit (b1 % 4 * 16 + b2 / 16),
      base64Digit (b2 % 16 * 4), '=']
  | b1 :: b2 :: b3 :: rest =>
    base64Digit (b1 / 4) :: base64Digit (b1 % 4 * 16 + b2 / 16) ::
      base64Digit (b2 % 16 * 4 + b3 / 64) :: base64Digit (b3 % 64) ::
      base64EncodeQuanta rest

/-- Go `base64.StdEncoding.EncodeToString`. -/
def base64StdEncode (bytes : List Nat) : String :=
  String.mk (base64EncodeQuanta bytes)

/-- The operations of the external libp2p crypto/host library that the
program calls, over an abstract private-key type:

  * `unmarshalPrivateKey` — `crypto.UnmarshalPrivateKey` (`none` = error);
  * `marshalPrivateKey` — `crypto.MarshalPrivateKey` (its error is ignored
    by the program);
  * `peerIDString` — the NodeID string the host derives from the supplied
    identity key, i.e. `h.ID().String()` for `h` built with
    `libp2p.Identity(priv)`. -/
structure Libp2pCrypto (PrivKey : Type) where
  unmarshalPrivateKey : List Nat → Option PrivKey
  marshalPrivateKey : PrivKey → List Nat
  peerIDString : PrivKey → String

/-- The inputs of one run of the second draft's `main`:

  * `port` — env `PORT` (`""` when unset, as `os.Getenv` reports);
  * `renderHost` — env `RENDER_EXTERNAL_HOSTNAME` (`""` when unset);
  * `relayPrivKeyB64` — env `RELAY_PRIVATE_KEY_B64` (`""` when unset);
  * `keyFile` — contents of the `private_key` file, `none` when
    `os.ReadFile` fails;
  * `genKey` — outcome of `crypto.GenerateEd25519Key(rand.Reader)`;
  * `hostNew` — outcome of `libp2p.New(...)` (beyond the identity already
    accounted for);
  * `relayNew` — outcome of `relay.New(h)`. -/
structure Env (PrivKey : Type) where
  port : String
  renderHost : String
  relayPrivKeyB64 : String
  keyFile : Option (List Nat)
  genKey : Except String PrivKey
  hostNew : Except String Unit
  relayNew : Except String Unit

/-- The fresh-generation tail of `loadOrMakePrivateKey` (src/main.go lines
123-132): generate an Ed25519 key, best-effort persist it (the file write's
outcome does not affect the result), and log the generation notice and the
base64 of the marshalled key.  Returns the result together with the log
lines emitted on this path. -/
def generateKeyPath {PK : Type} (C : Libp2pCrypto PK) (env : Env PK) :
    Except String PK × List String :=
  match env.genKey with
  | .error e => (.error ("generate key failed: " ++ e), [])
  | .ok priv =>
    (.ok priv,
      ["Generated new libp2p private key",
       "Base64 (set RELAY_PRIVATE_KEY_B64 to persist):\n" ++
         base64StdEncode (C.marshalPrivateKey priv) ++ "\n"])

/-- `loadOrMakePrivateKey` (src/main.go lines 102-133), with its log lines:

  1. if `RELAY_PRIVATE_KEY_B64` is non-empty, base64-decode and unmarshal
     it; either failure is returned as an error (no fallback);
  2. else, if the `private_key` file was read and unmarshals, use it;
  3. else (file missing or unmarshal failed — no log line distinguishes
     the two), fall through to fresh generation. -/
def loadOrMakePrivateKey {PK : Type} (C : Libp2pCrypto PK) (env : Env PK) :
    Except String PK × List String :=
  if env.relayPrivKeyB64 ≠ "" then
    match base64StdDecode env.relayPrivKeyB64 with
    | none => (.error "decode key failed", [])
    | some data =>
      match C.unmarshalPrivateKey data with
      | none => (.error "unmarshal key failed", [])
      | some priv => (.ok priv, ["Loaded private key from RELAY_PRIVATE_KEY_B64"])
  else
    match env.keyFile with
    | some data =>
      match C.unmarshalPrivateKey data with
      | some priv => (.ok priv, ["Loaded private_key file"])
      | none => generateKeyPath C env
    | none => generateKeyPath C env

/-- The NodeID a run reports for the loaded identity: `h.ID().String()`
applied to the key `loadOrMakePrivateKey` returned (error propagated). -/
def nodeIDOf {PK : Type} (C : Libp2pCrypto PK) (env : Env PK) :
    Except String String :=
  (loadOrMakePrivateKey C env).1.map C.peerIDString

/-- `PORT` with its default (src/main.go lines 139-142): `"4000"` when the
variable is unset/empty. -/
def portOrDefault {PK : Type} (env : Env PK) : String :=
  if env.port = "" then "4000" else env.port

/-- The advertised multiaddr string built from `RENDER_EXTERNAL_HOSTNAME`
(src/main.go lines 148-151): empty when no hostname is set, otherwise
`/dns4/<host>/tcp/443/wss` — the external port is the literal 443
independent of `PORT`. -/
def publicMaddrOf (renderHost : String) : String :=
  if renderHost = "" then "" else "/dns4/" ++ renderHost ++ "/tcp/443/wss"

/-- `publicMaddrStr` as `main` computes it from the environment. -/
def mainPublicMaddrStr {PK : Type} (env : Env PK) : String :=
  publicMaddrOf env.renderHost

/-- The libp2p listen address (src/main.go line 159):
`/ip4/0.0.0.0/tcp/<PORT>/ws`. -/
def listenAddr {PK : Type} (env : Env PK) : String :=
  "/ip4/0.0.0.0/tcp/" ++ portOrDefault env ++ "/ws"

/-- The `addrFactory` closure (src/main.go lines 161-170), over an abstract
multiaddr type `M` with an abstract parser `parse` standing for
`ma.NewMultiaddr` (`none` = error): if no public multiaddr string was
built, or it fails to parse, return the naturally discovered addresses
unchanged; otherwise return just the parsed public multiaddr. -/
def addrFactory {M : Type} (parse : String → Option M)
    (publicMaddrStr : String) (addrs : List M) : List M :=
  if publicMaddrStr = "" then addrs
  else
    match parse publicMaddrStr with
    | none => addrs
    | some m => [m]

/-- What `main` has established once the host and relay service are up:
the host's NodeID, the advertised public multiaddr string (possibly empty),
and the bound listen address. -/
structure StartedNode where
  nodeID : String
  publicMaddrStr : String
  listen : String
deriving DecidableEq

/-- The second draft's `main` from startup through `relay.New`
(src/main.go lines 135-190), as the outcome it reaches: each
`log.Fatalf` is an `Except.error` carrying the format prefix (the process
exits; nothing below runs), and success carries the `StartedNode`. -/
def mainStartup {PK : Type} (C : Libp2pCrypto PK) (env : Env PK) :
    Except String StartedNode :=
  match (loadOrMakePrivateKey C env).1 with
  | .error e => .error ("key error: " ++ e)
  | .ok priv =>
    match env.hostNew with
    | .error e => .error ("libp2p host failed: " ++ e)
    | .ok _ =>
      match env.relayNew with
      | .error e => .error ("enable relay hop failed: " ++ e)
      | .ok _ =>
        .ok { nodeID := C.peerIDString priv,
              publicMaddrStr := mainPublicMaddrStr env,
              listen := listenAddr env }

/-- The requests the status mux serves (src/main.go lines 195-209). -/
inductive Request where
  | root
  | peerid
  | multiaddr
deriving DecidableEq

/-- The values the status handlers close over: `h.ID().String()` and
`publicMaddrStr`, both fixed at startup. -/
structure ServerState where
  nodeID : String
  publicMaddrStr : String
deriving DecidableEq

/-- Body of the `/multiaddr` handler (src/main.go lines 203-209): the
literal marker when no public multiaddr string was built, otherwise
`<publicMaddrStr>/p2p/<NodeID>`. -/
def multiaddrResponse (publicMaddrStr nodeID : String) : String :=
  if publicMaddrStr = "" then "no-public-hostname-set"
  else publicMaddrStr ++ "/p2p/" ++ nodeID

/-- One status request (src/main.go lines 196-209): the response body,
paired with the server's state afterwards — the handlers only read the
closed-over values, so the state is passed through. -/
def handleRequest (s : ServerState) : Request → String × ServerState
  | .root => ("ok", s)
  | .peerid => (s.nodeID, s)
  | .multiaddr => (multiaddrResponse s.publicMaddrStr s.nodeID, s)

/-- A sequence of status requests within one run: the response bodies in
order, and the final server state. -/
def runRequests (s : ServerState) : List Request → List String × ServerState
  | [] => ([], s)
  | r :: rs =>
    let p := handleRequest s r
    let q := runRequests p.2 rs
    (p.1 :: q.1, q.2)

/-- The port the second draft's status server binds (src/main.go line 194):
the hardcoded local `statusPort := "8080"`. -/
def statusPort : String := "8080"

/-- The bind address handed to `http.ListenAndServe` by the second draft's
status goroutine (src/main.go line 212).  It takes the environment like the
surrounding `main` does, but ignores it: the port is the hardcoded
`statusPort`. -/
def statusServerBind {PK : Type} (_env : Env PK) : String :=
  ":" ++ statusPort

/-- The bind address of the first draft's status server (src/main.go line
66): `":" + port`, i.e. the configured `PORT` (with its default). -/
def draft1StatusServerBind {PK : Type} (env : Env PK) : String :=
  ":" ++ portOrDefault env

/-- Hours after which `time.After(100 * 365 * 24 * time.Hour)` in the final
select fires (src/main.go lines 218-222; the first draft's lines 72-77 are
identical). -/
def blockTimerHours : Nat := 100 * 365 * 24

/-- How the final select ends: at which hour (counted from reaching the
select) the process exits, if ever, and whether `h.Close()` ran before the
exit. -/
structure SelectOutcome where
  exitsAtHour : Option Nat
  hostClosed : Bool
deriving DecidableEq

/-- The final `select` (src/main.go lines 218-222): it waits on
`ctx.Done()` — firing at hour `ctxDoneAt`, never when `none` — and on a
timer firing at hour `timerHours`.  The branch whose channel is ready first
runs: the `ctx.Done()` branch closes the host and falls out of `main`; the
timer branch falls out of `main` without closing the host.  (A tie is
resolved in favour of the `ctx.Done()` branch; Go picks randomly, and the
program below never reaches a tie.) -/
def finalSelect (ctxDoneAt : Option Nat) (timerHours : Nat) : SelectOutcome :=
  match ctxDoneAt with
  | some t =>
    if t ≤ timerHours then { exitsAtHour := some t, hostClosed := true }
    else { exitsAtHour := some timerHours, hostClosed := false }
  | none => { exitsAtHour := some timerHours, hostClosed := false }

/-- `ctx` is `context.Background()` (src/main.go line 136) and no signal
handler or cancellation is ever installed, so its `Done()` channel never
fires. -/
def mainCtxDoneAt : Option Nat := none

/-- The outcome of the final select in the program as written. -/
def mainFinalSelect : SelectOutcome :=
  finalSelect mainCtxDoneAt blockTimerHours

/-- Equality of `Except` values is decidable componentwise (used to evaluate
the startup outcomes on closed inputs). -/
instance {ε α : Type} [DecidableEq ε] [DecidableEq α] : DecidableEq (Except ε α) := fun a b =>
  match a, b with
  | .error x, .error y =>
    if h : x = y then isTrue (congrArg Except.error h)
    else isFalse (fun he => h (Except.error.inj he))
  | .ok x, .ok y =>
    if h : x = y then isTrue (congrArg Except.ok h)
    else isFalse (fun he => h (Except.ok.inj he))
  | .error _, .ok _ => isFalse (fun he => Except.noConfusion he)
  | .ok _, .error _ => isFalse (fun he => Except.noConfusion he)

/-! Concrete instantiations of the abstract library and environment, used to
evaluate the theorems below on closed inputs. -/

/-- A concrete crypto library for evaluation: a marshalled key is its byte
list prefixed by the byte 8, so unmarshalling succeeds exactly on lists
starting with 8, and the peer ID string records the key bytes. -/
def taggedCrypto : Libp2pCrypto (List Nat) where
  unmarshalPrivateKey := fun l =>
    match l with
    | 8 :: rest => some rest
    | _ => none
  marshalPrivateKey := fun l => 8 :: l
  peerIDString := fun l => "peer:" ++ base64StdEncode l

/-- Environment with a valid injected key (`"CAEC"` decodes to `[8,1,2]`),
no key file, and a failing generator — the latter two must not matter. -/
def envInjected : Env (List Nat) :=
  { port := "", renderHost := "", relayPrivKeyB64 := "CAEC",
    keyFile := none, genKey := .error "gen-fail",
    hostNew := .ok (), relayNew := .ok () }

/-- Same injected key as `envInjected` but every other input different. -/
def envInjectedB : Env (List Nat) :=
  { port := "7", renderHost := "h", relayPrivKeyB64 := "CAEC",
    keyFile := some [9], genKey := .ok [5],
    hostNew := .ok (), relayNew := .ok () }

/-- Environment of end-to-end scenario A: hostname `relay.example.com`,
internal port `10001`, injected key `"CAEC"`. -/
def envScenarioA : Env (List Nat) :=
  { port := "10001", renderHost := "relay.example.com",
    relayPrivKeyB64 := "CAEC", keyFile := none,
    genKey := .error "unused", hostNew := .ok (), relayNew := .ok () }

/-- The node `mainStartup` reaches on `envScenarioA` with `taggedCrypto`. -/
def nodeScenarioA : StartedNode :=
  { nodeID := "peer:AQI=",
    publicMaddrStr := "/dns4/relay.example.com/tcp/443/wss",
    listen := "/ip4/0.0.0.0/tcp/10001/ws" }

/-- Environment whose injected key `"AAAA"` decodes to `[0,0,0]`, which
`taggedCrypto` refuses to unmarshal; the (valid) key file and generator
must not be fallen back to. -/
def envBadInjected : Env (List Nat) :=
  { port := "", renderHost := "", relayPrivKeyB64 := "AAAA",
    keyFile := some [8, 7], genKey := .ok [1],
    hostNew := .ok (), relayNew := .ok () }

/-- Hostname set, internal port `10001`. -/
def envPortA : Env (List Nat) :=
  { port := "10001", renderHost := "relay.example.com",
    relayPrivKeyB64 := "", keyFile := none, genKey := .ok [1],
    hostNew := .ok (), relayNew := .ok () }

/-- Same hostname as `envPortA`, internal port `20002`. -/
def envPortB : Env (List Nat) :=
  { port := "20002", renderHost := "relay.example.com",
    relayPrivKeyB64 := "", keyFile := none, genKey := .ok [1],
    hostNew := .ok (), relayNew := .ok () }

/-- A multiaddr parser for evaluation: accepts exactly one string. -/
def parseOnlyX : String → Option Nat :=
  fun s => if s = "/dns4/x/tcp/443/wss" then some 5 else none

/-- No injected key; the `private_key` file holds `[9,9]`, which
`taggedCrypto` refuses to unmarshal; generation yields `[1,2,3]`. -/
def envCorruptFile : Env (List Nat) :=
  { port := "", renderHost := "", relayPrivKeyB64 := "",
    keyFile := some [9, 9], genKey := .ok [1, 2, 3],
    hostNew := .ok (), relayNew := .ok () }

/-- Like `envCorruptFile` but the key file is missing entirely. -/
def envNoFile : Env (List Nat) :=
  { port := "", renderHost := "", relayPrivKeyB64 := "",
    keyFile := none, genKey := .ok [1, 2, 3],
    hostNew := .ok (), relayNew := .ok () }

/-- Environment with `PORT=10001`, for the status-server binding. -/
def envPort10001 : Env (List Nat) :=
  { port := "10001", renderHost := "relay.example.com",
    relayPrivKeyB64 := "", keyFile := none, genKey := .ok [1],
    hostNew := .ok (), relayNew := .ok () }

/-- A parser that rejects every string, for the malformed-address case. -/
def parseNone : String → Option Unit := fun _ => none

/-- A concrete status-server state for evaluation. -/
def stateA : ServerState :=
  { nodeID := "peer:AQI=",
    publicMaddrStr := "/dns4/relay.example.com/tcp/443/wss" }

/-- A concrete request sequence repeating `/peerid` at positions 0 and 2. -/
def reqsA : List Request := [.peerid, .multiaddr, .peerid, .root]

/-! Helper lemmas shared by the claim theorems. -/

/-- With a hostname set, the built multiaddr string is non-empty. -/
theorem publicMaddrOf_ne_empty (host : String) (h : host ≠ "") :
    publicMaddrOf host ≠ "" := by
  unfold publicMaddrOf
  rw [if_neg h]
  intro heq
  have hl := congrArg String.length heq
  rw [String.length_append, String.length_append] at hl
  rw [show ("/dns4/" : String).length = 6 from rfl,
    show ("/tcp/443/wss" : String).length = 12 from rfl,
    show ("" : String).length = 0 from rfl] at hl
  omega

/-- With a hostname set, the built multiaddr string with any `/p2p/` suffix
differs from the no-hostname marker (it starts with a slash). -/
theorem publicMaddr_suffixed_ne_marker (host nid : String) (h : host ≠ "") :
    publicMaddrOf host ++ "/p2p/" ++ nid ≠ "no-public-hostname-set" := by
  unfold publicMaddrOf
  rw [if_neg h]
  intro heq
  have hd := congrArg String.data heq
  simp only [String.data_append, List.cons_append] at hd
  injection hd with h1 _
  exact absurd h1 (by decide)

/-- Unfolding of the loader on the injected-key success path. -/
theorem loadOrMakePrivateKey_injected {PK : Type} (C : Libp2pCrypto PK)
    (env : Env PK) (d : List Nat) (priv : PK)
    (hne : env.relayPrivKeyB64 ≠ "")
    (hdec : base64StdDecode env.relayPrivKeyB64 = some d)
    (hum : C.unmarshalPrivateKey d = some priv) :
    loadOrMakePrivateKey C env =
      (.ok priv, ["Loaded private key from RELAY_PRIVATE_KEY_B64"]) := by
  unfold loadOrMakePrivateKey
  rw [if_pos hne, hdec]
  simp only [hum]

/-- A successful startup's fields are the values `main` computed. -/
theorem mainStartup_ok_fields {PK : Type} (C : Libp2pCrypto PK) (env : Env PK)
    (node : StartedNode) (h : mainStartup C env = .ok node) :
    node.publicMaddrStr = mainPublicMaddrStr env ∧ node.listen = listenAddr env := by
  unfold mainStartup at h
  split at h
  · exact absurd h (by simp)
  · split at h
    · exact absurd h (by simp)
    · split at h
      · exact absurd h (by simp)
      · rw [← Except.ok.inj h]
        exact ⟨rfl, rfl⟩

/-- Each status handler returns the state it was given. -/
theorem handleRequest_snd (s : ServerState) (r : Request) :
    (handleRequest s r).2 = s := by
  cases r <;> rfl

/-- A request sequence leaves the server state unchanged. -/
theorem runRequests_snd (s : ServerState) (l : List Request) :
    (runRequests s l).2 = s := by
  induction l generalizing s with
  | nil => rfl
  | cons r rs ih =>
    show (runRequests (handleRequest s r).2 rs).2 = s
    rw [handleRequest_snd]
    exact ih s

/-- The i-th response is the handler's answer to the i-th request. -/
theorem runRequests_getD (s : ServerState) (l : List Request) (i : Nat)
    (h : i < l.length) :
    (runRequests s l).1.getD i "" = (handleRequest s (l.getD i .root)).1 := by
  induction l generalizing s i with
  | nil => exact absurd h (by simp)
  | cons r rs ih =>
    cases i with
    | zero => rfl
    | succ n =>
      show ((runRequests (handleRequest s r).2 rs).1).getD n "" =
        (handleRequest s (rs.getD n .root)).1
      rw [handleRequest_snd]
      exact ih s n (Nat.lt_of_succ_lt_succ h)

/-! The claims. -/

/-- C1: for every valid injected base64 private key (it decodes and
deserializes), the loader returns exactly that key with only the env-load
log line; the outcome — and hence the derived NodeID — is identical for
any two environments carrying byte-identical key material, whatever their
key file or generator would produce, so neither the file path nor the
fresh-generation path is ever consulted. -/
theorem c1_injected_key_deterministic {PK : Type} (C : Libp2pCrypto PK)
    (e1 e2 : Env PK) (d : List Nat) (priv : PK)
    (hb : e1.relayPrivKeyB64 = e2.relayPrivKeyB64)
    (hne : e1.relayPrivKeyB64 ≠ "")
    (hdec : base64StdDecode e1.relayPrivKeyB64 = some d)
    (hum : C.unmarshalPrivateKey d = some priv) :
    loadOrMakePrivateKey C e1 =
      (.ok priv, ["Loaded private key from RELAY_PRIVATE_KEY_B64"]) ∧
    loadOrMakePrivateKey C e2 = loadOrMakePrivateKey C e1 ∧
    nodeIDOf C e1 = .ok (C.peerIDString priv) ∧
    nodeIDOf C e2 = nodeIDOf C e1 := by
  have h1 := loadOrMakePrivateKey_injected C e1 d priv hne hdec hum
  have h2 := loadOrMakePrivateKey_injected C e2 d priv (hb ▸ hne) (hb ▸ hdec) hum
  refine ⟨h1, h2.trans h1.symm, ?_, ?_⟩
  · unfold nodeIDOf
    rw [h1]
    rfl
  · unfold nodeIDOf
    rw [h1, h2]

/-- Witness for C1: the key `"CAEC"` injected into two environments that
disagree on every other input (key file, generator, ports, hostname). -/
theorem c1_witness :
    envInjected.relayPrivKeyB64 = envInjectedB.relayPrivKeyB64 ∧
    envInjected.relayPrivKeyB64 ≠ "" ∧
    base64StdDecode envInjected.relayPrivKeyB64 = some [8, 1, 2] ∧
    taggedCrypto.unmarshalPrivateKey [8, 1, 2] = some [1, 2] ∧
    (loadOrMakePrivateKey taggedCrypto envInjected =
      (.ok [1, 2], ["Loaded private key from RELAY_PRIVATE_KEY_B64"]) ∧
    loadOrMakePrivateKey taggedCrypto envInjectedB =
      loadOrMakePrivateKey taggedCrypto envInjected ∧
    nodeIDOf taggedCrypto envInjected = .ok (taggedCrypto.peerIDString [1, 2]) ∧
    nodeIDOf taggedCrypto envInjectedB = nodeIDOf taggedCrypto envInjected) :=
  ⟨rfl, by decide, by decide, by decide,
    c1_injected_key_deterministic taggedCrypto envInjected envInjectedB
      [8, 1, 2] [1, 2] rfl (by decide) (by decide) (by decide)⟩

/-- C2: for any startup that reached a running node, the `/multiaddr`
response is exactly `/dns4/<hostname>/tcp/443/wss/p2p/<NodeID>` when a
public hostname was configured, and exactly the literal
`no-public-hostname-set` when none was. -/
theorem c2_multiaddr_query {PK : Type} (C : Libp2pCrypto PK) (env : Env PK)
    (node : StartedNode) (hrun : mainStartup C env = .ok node) :
    (env.renderHost ≠ "" →
      multiaddrResponse node.publicMaddrStr node.nodeID =
        "/dns4/" ++ env.renderHost ++ "/tcp/443/wss/p2p/" ++ node.nodeID) ∧
    (env.renderHost = "" →
      multiaddrResponse node.publicMaddrStr node.nodeID =
        "no-public-hostname-set") := by
  have hpub := (mainStartup_ok_fields C env node hrun).1
  constructor
  · intro hne
    rw [hpub]
    unfold mainPublicMaddrStr multiaddrResponse
    rw [if_neg (publicMaddrOf_ne_empty env.renderHost hne)]
    unfold publicMaddrOf
    rw [if_neg hne]
    simp only [String.append_assoc]
    congr 1
  · intro hempty
    rw [hpub]
    unfold mainPublicMaddrStr publicMaddrOf multiaddrResponse
    rw [if_pos hempty, if_pos rfl]

/-- Witness for C2 at end-to-end scenario A: hostname `relay.example.com`,
internal port `10001`. -/
theorem c2_witness :
    mainStartup taggedCrypto envScenarioA = .ok nodeScenarioA ∧
    envScenarioA.renderHost ≠ "" ∧
    multiaddrResponse nodeScenarioA.publicMaddrStr nodeScenarioA.nodeID =
      "/dns4/relay.example.com/tcp/443/wss/p2p/peer:AQI=" :=
  ⟨by decide, by decide,
    ((c2_multiaddr_query taggedCrypto envScenarioA nodeScenarioA
      (by decide)).1 (by decide)).trans (by decide)⟩

/-- C3 counterexample: the claim says no internal timer bounds the process
lifetime, but the final select's `time.After(100 * 365 * 24 * time.Hour)`
branch fires and exits `main` at hour 876000 — without closing the host. -/
theorem c3_counterexample :
    mainFinalSelect.exitsAtHour ≠ none ∧
    mainFinalSelect.exitsAtHour = some 876000 ∧
    mainFinalSelect.hostClosed = false := by
  decide

/-- C3 (amended): an internal timer of 100*365*24 = 876000 hours does bound
the process lifetime: `ctx` is `context.Background()` (no shutdown signal is
ever wired to it, so its `Done()` never fires) and the final select
therefore always exits through the timer branch at hour 876000 without
closing the host; the host-closing branch would run only if a `ctx.Done()`
event occurred no later than the timer. -/
theorem c3_amended :
    blockTimerHours = 876000 ∧
    mainCtxDoneAt = none ∧
    mainFinalSelect = { exitsAtHour := some 876000, hostClosed := false } ∧
    (∀ t : Nat, t ≤ blockTimerHours →
      finalSelect (some t) blockTimerHours =
        { exitsAtHour := some t, hostClosed := true }) := by
  refine ⟨by decide, rfl, by decide, fun t ht => ?_⟩
  show (if t ≤ blockTimerHours then
      ({ exitsAtHour := some t, hostClosed := true } : SelectOutcome)
    else { exitsAtHour := some blockTimerHours, hostClosed := false }) =
    { exitsAtHour := some t, hostClosed := true }
  rw [if_pos ht]

/-- Witness for C3 (amended) at a concrete hypothetical cancellation hour. -/
theorem c3_amended_witness :
    (0 : Nat) ≤ blockTimerHours ∧
    finalSelect (some 0) blockTimerHours =
      { exitsAtHour := some 0, hostClosed := true } :=
  ⟨by decide, c3_amended.2.2.2 0 (by decide)⟩

/-- C4: if injected key material is present but malformed — base64 decoding
fails, or the decoded bytes fail to deserialize — the loader errors, `main`
dies at its `log.Fatalf` with no NodeID, and the loader's outcome is the
same for every environment carrying that key material, whatever its key
file or generator hold: there is no fallback. -/
theorem c4_malformed_injected_key_fatal {PK : Type} (C : Libp2pCrypto PK)
    (env : Env PK)
    (hne : env.relayPrivKeyB64 ≠ "")
    (hbad : ∀ d, base64StdDecode env.relayPrivKeyB64 = some d →
      C.unmarshalPrivateKey d = none) :
    (∃ msg, (loadOrMakePrivateKey C env).1 = .error msg ∧
      loadOrMakePrivateKey C env = (.error msg, []) ∧
      nodeIDOf C env = .error msg ∧
      mainStartup C env = .error ("key error: " ++ msg)) ∧
    (∀ e2 : Env PK, e2.relayPrivKeyB64 = env.relayPrivKeyB64 →
      loadOrMakePrivateKey C e2 = loadOrMakePrivateKey C env) := by
  have key : ∀ e2 : Env PK, e2.relayPrivKeyB64 = env.relayPrivKeyB64 →
      loadOrMakePrivateKey C e2 = loadOrMakePrivateKey C env := by
    intro e2 hb
    unfold loadOrMakePrivateKey
    rw [if_pos (hb.symm ▸ hne), if_pos hne, hb]
  obtain ⟨msg, hmsg⟩ : ∃ msg, loadOrMakePrivateKey C env = (.error msg, []) := by
    unfold loadOrMakePrivateKey
    rw [if_pos hne]
    cases hdec : base64StdDecode env.relayPrivKeyB64 with
    | none => exact ⟨"decode key failed", by simp⟩
    | some d => exact ⟨"unmarshal key failed", by simp [hbad d hdec]⟩
  refine ⟨⟨msg, ?_, hmsg, ?_, ?_⟩, fun e2 hb => key e2 hb⟩
  · rw [hmsg]
  · unfold nodeIDOf
    rw [hmsg]
    rfl
  · unfold mainStartup
    rw [hmsg]

/-- Witness for C4: injected key `"AAAA"` decodes to `[0,0,0]`, which the
crypto library refuses, while the environment's key file and generator are
both valid — and ignored. -/
theorem c4_witness :
    envBadInjected.relayPrivKeyB64 ≠ "" ∧
    base64StdDecode "AAAA" = some [0, 0, 0] ∧
    taggedCrypto.unmarshalPrivateKey [0, 0, 0] = none ∧
    envBadInjected.keyFile = some [8, 7] ∧
    envBadInjected.genKey = .ok [1] ∧
    ((∃ msg, (loadOrMakePrivateKey taggedCrypto envBadInjected).1 = .error msg ∧
      loadOrMakePrivateKey taggedCrypto envBadInjected = (.error msg, []) ∧
      nodeIDOf taggedCrypto envBadInjected = .error msg ∧
      mainStartup taggedCrypto envBadInjected = .error ("key error: " ++ msg)) ∧
    (∀ e2 : Env (List Nat), e2.relayPrivKeyB64 = envBadInjected.relayPrivKeyB64 →
      loadOrMakePrivateKey taggedCrypto e2 =
        loadOrMakePrivateKey taggedCrypto envBadInjected)) :=
  ⟨by decide, by decide, by decide, rfl, rfl,
    c4_malformed_injected_key_fatal taggedCrypto envBadInjected (by decide)
      (fun d h => by
        rw [show base64StdDecode envBadInjected.relayPrivKeyB64 =
          some [0, 0, 0] from by decide] at h
        rw [← Option.some.inj h]
        decide)⟩

/-- C5: for any two configurations agreeing on the public hostname, the
advertised multiaddr string is the same — it is `/dns4/<host>/tcp/443/wss`
with the fixed external port 443 — even when their internal listen ports
differ, while the listen address the networking stack binds does follow the
internal port. -/
theorem c5_external_port_fixed {PK : Type} (e1 e2 : Env PK)
    (hhost : e1.renderHost = e2.renderHost)
    (hne : e1.renderHost ≠ "")
    (hport : portOrDefault e1 ≠ portOrDefault e2) :
    mainPublicMaddrStr e1 = "/dns4/" ++ e1.renderHost ++ "/tcp/443/wss" ∧
    mainPublicMaddrStr e2 = mainPublicMaddrStr e1 ∧
    listenAddr e1 ≠ listenAddr e2 := by
  refine ⟨?_, ?_, ?_⟩
  · unfold mainPublicMaddrStr publicMaddrOf
    rw [if_neg hne]
  · unfold mainPublicMaddrStr
    rw [hhost]
  · intro heq
    apply hport
    unfold listenAddr at heq
    have hd := congrArg String.data heq
    simp only [String.data_append] at hd
    exact String.ext (List.append_cancel_left (List.append_cancel_right hd))

/-- Witness for C5: hostname `relay.example.com` with internal ports
`10001` and `20002`. -/
theorem c5_witness :
    envPortA.renderHost = envPortB.renderHost ∧
    envPortA.renderHost ≠ "" ∧
    portOrDefault envPortA ≠ portOrDefault envPortB ∧
    (mainPublicMaddrStr envPortA = "/dns4/relay.example.com/tcp/443/wss" ∧
     mainPublicMaddrStr envPortB = mainPublicMaddrStr envPortA ∧
     listenAddr envPortA ≠ listenAddr envPortB) :=
  ⟨rfl, by decide, by decide, by
    have h := c5_external_port_fixed envPortA envPortB rfl (by decide) (by decide)
    exact ⟨h.1.trans (by decide), h.2.1, h.2.2⟩⟩

/-- C6: the address-override hook returns exactly the parsed public address
as a one-element list when a public address string was produced and parses,
and returns the naturally discovered addresses unmodified when no public
address string was built or when it fails to parse. -/
theorem c6_addrFactory_override {M : Type} (parse : String → Option M)
    (pub : String) (addrs : List M) :
    (∀ m, pub ≠ "" → parse pub = some m → addrFactory parse pub addrs = [m]) ∧
    ((pub = "" ∨ parse pub = none) → addrFactory parse pub addrs = addrs) := by
  constructor
  · intro m hne hp
    unfold addrFactory
    rw [if_neg hne, hp]
  · intro h
    unfold addrFactory
    cases h with
    | inl h => rw [if_pos h]
    | inr h =>
      by_cases hpub : pub = ""
      · rw [if_pos hpub]
      · rw [if_neg hpub, h]

/-- Witness for C6: a parser accepting exactly one string, exercised on a
produced-and-parsed public address and on an absent one. -/
theorem c6_witness :
    parseOnlyX "/dns4/x/tcp/443/wss" = some 5 ∧
    addrFactory parseOnlyX "/dns4/x/tcp/443/wss" [1, 2] = [5] ∧
    addrFactory parseOnlyX "" [1, 2] = [1, 2] :=
  ⟨by decide,
   (c6_addrFactory_override parseOnlyX "/dns4/x/tcp/443/wss" [1, 2]).1 5
     (by decide) (by decide),
   (c6_addrFactory_override parseOnlyX "" [1, 2]).2 (Or.inl rfl)⟩

/-- C7 counterexample: the claim says a corrupt key file makes the loader
log a warning; in the code the corrupt-file run is byte-identical — result
and every log line — to the run with no key file at all, and the only lines
logged are the two fresh-generation ones, so no warning about the file is
ever emitted. -/
theorem c7_counterexample :
    loadOrMakePrivateKey taggedCrypto envCorruptFile =
      loadOrMakePrivateKey taggedCrypto envNoFile ∧
    (loadOrMakePrivateKey taggedCrypto envCorruptFile).2 =
      ["Generated new libp2p private key",
       "Base64 (set RELAY_PRIVATE_KEY_B64 to persist):\nCAECAw==\n"] ∧
    envCorruptFile.keyFile = some [9, 9] ∧
    taggedCrypto.unmarshalPrivateKey [9, 9] = none := by
  decide

/-- C7 (amended): with no injected key and a key file that fails to
deserialize, identity loading is non-fatal and silently falls through to
fresh generation: it treats the file as absent — the outcome, log lines
included, is identical to the file-absent run, so no warning is logged —
and startup continues whenever generation succeeds. -/
theorem c7_corrupt_file_silent_fallthrough {PK : Type} (C : Libp2pCrypto PK)
    (env : Env PK) (d : List Nat)
    (hb : env.relayPrivKeyB64 = "")
    (hf : env.keyFile = some d)
    (hu : C.unmarshalPrivateKey d = none) :
    loadOrMakePrivateKey C env = generateKeyPath C env ∧
    loadOrMakePrivateKey C env =
      loadOrMakePrivateKey C { env with keyFile := none } ∧
    (∀ priv, env.genKey = .ok priv →
      (loadOrMakePrivateKey C env).1 = .ok priv) := by
  have h1 : loadOrMakePrivateKey C env = generateKeyPath C env := by
    unfold loadOrMakePrivateKey
    rw [if_neg (not_not_intro hb), hf]
    simp only [hu]
  have h2 : loadOrMakePrivateKey C { env with keyFile := none } =
      generateKeyPath C env := by
    unfold loadOrMakePrivateKey
    rw [if_neg (not_not_intro hb)]
    rfl
  refine ⟨h1, h1.trans h2.symm, fun priv hg => ?_⟩
  rw [h1]
  unfold generateKeyPath
  rw [hg]

/-- Witness for C7 (amended): the corrupt key file `[9,9]`. -/
theorem c7_witness :
    envCorruptFile.relayPrivKeyB64 = "" ∧
    envCorruptFile.keyFile = some [9, 9] ∧
    taggedCrypto.unmarshalPrivateKey [9, 9] = none ∧
    (loadOrMakePrivateKey taggedCrypto envCorruptFile =
       generateKeyPath taggedCrypto envCorruptFile ∧
     loadOrMakePrivateKey taggedCrypto envCorruptFile =
       loadOrMakePrivateKey taggedCrypto { envCorruptFile with keyFile := none } ∧
     (∀ priv, envCorruptFile.genKey = .ok priv →
       (loadOrMakePrivateKey taggedCrypto envCorruptFile).1 = .ok priv)) :=
  ⟨rfl, rfl, rfl,
    c7_corrupt_file_silent_fallthrough taggedCrypto envCorruptFile [9, 9]
      rfl rfl rfl⟩

/-- C8 counterexample: with `PORT=10001` configured, the second draft's
status server binds `":8080"`, not the configured port. -/
theorem c8_counterexample :
    envPort10001.port = "10001" ∧
    statusServerBind envPort10001 = ":8080" ∧
    statusServerBind envPort10001 ≠ ":" ++ envPort10001.port ∧
    statusServerBind envPort10001 ≠ ":" ++ portOrDefault envPort10001 := by
  decide

/-- C8 (amended): the second draft's status server binds the hardcoded
internal port 8080 whatever the configuration; the configured `PORT` is
bound by the libp2p host's listen address instead.  Only the first draft's
status server bound the configured `PORT`, so the drafts bind differently
whenever that port is not 8080. -/
theorem c8_status_binds_8080 {PK : Type} (env : Env PK) :
    statusServerBind env = ":8080" ∧
    listenAddr env = "/ip4/0.0.0.0/tcp/" ++ portOrDefault env ++ "/ws" ∧
    draft1StatusServerBind env = ":" ++ portOrDefault env ∧
    (portOrDefault env ≠ "8080" →
      statusServerBind env ≠ draft1StatusServerBind env) := by
  refine ⟨rfl, rfl, rfl, fun hp heq => hp ?_⟩
  have hd := congrArg String.data heq
  simp only [statusServerBind, draft1StatusServerBind, String.data_append] at hd
  exact (String.ext (List.append_cancel_left hd)).symm

/-- Witness for C8 (amended) at `PORT=10001`. -/
theorem c8_witness :
    portOrDefault envPort10001 ≠ "8080" ∧
    (statusServerBind envPort10001 = ":8080" ∧
     listenAddr envPort10001 =
       "/ip4/0.0.0.0/tcp/" ++ portOrDefault envPort10001 ++ "/ws" ∧
     draft1StatusServerBind envPort10001 = ":" ++ portOrDefault envPort10001 ∧
     statusServerBind envPort10001 ≠ draft1StatusServerBind envPort10001) :=
  ⟨by decide, by
    have h := c8_status_binds_8080 envPort10001
    exact ⟨h.1, h.2.1, h.2.2.1, h.2.2.2 (by decide)⟩⟩

/-- C9: within one run, status queries mutate nothing — every request
sequence returns the server's state unchanged — and they are idempotent:
any two positions holding the same request yield byte-identical response
bodies, each handler being a pure function of the startup-fixed identity
and public address. -/
theorem c9_status_idempotent (s : ServerState) (reqs : List Request)
    (i j : Nat) (hi : i < reqs.length) (hj : j < reqs.length)
    (hr : reqs.getD i .root = reqs.getD j .root) :
    (runRequests s reqs).2 = s ∧
    (runRequests s reqs).1.getD i "" = (runRequests s reqs).1.getD j "" := by
  refine ⟨runRequests_snd s reqs, ?_⟩
  rw [runRequests_getD s reqs i hi, runRequests_getD s reqs j hj, hr]

/-- Witness for C9: `/peerid` repeated at positions 0 and 2 of a concrete
request sequence. -/
theorem c9_witness :
    (0 : Nat) < reqsA.length ∧ (2 : Nat) < reqsA.length ∧
    reqsA.getD 0 .root = reqsA.getD 2 .root ∧
    ((runRequests stateA reqsA).2 = stateA ∧
     (runRequests stateA reqsA).1.getD 0 "" =
       (runRequests stateA reqsA).1.getD 2 "") :=
  ⟨by decide, by decide, by decide,
    c9_status_idempotent stateA reqsA 0 2 (by decide) (by decide) (by decide)⟩

/-- C10: when a hostname is configured but the built address string fails
to parse as a multiaddr, the override hook falls back to the natural
addresses, while the `/multiaddr` status query still reports the
unparseable string suffixed with `/p2p/<NodeID>` — never the no-hostname
marker — so the advertised and reported addresses can disagree. -/
theorem c10_status_ignores_parse_failure {M : Type} (parse : String → Option M)
    (host nid : String) (addrs : List M)
    (hne : host ≠ "")
    (hbad : parse (publicMaddrOf host) = none) :
    addrFactory parse (publicMaddrOf host) addrs = addrs ∧
    multiaddrResponse (publicMaddrOf host) nid =
      publicMaddrOf host ++ "/p2p/" ++ nid ∧
    multiaddrResponse (publicMaddrOf host) nid ≠ "no-public-hostname-set" := by
  have hne' := publicMaddrOf_ne_empty host hne
  have hresp : multiaddrResponse (publicMaddrOf host) nid =
      publicMaddrOf host ++ "/p2p/" ++ nid := by
    unfold multiaddrResponse
    rw [if_neg hne']
  refine ⟨?_, hresp, ?_⟩
  · unfold addrFactory
    rw [if_neg hne', hbad]
  · rw [hresp]
    exact publicMaddr_suffixed_ne_marker host nid hne

/-- Witness for C10 with a parser rejecting every string. -/
theorem c10_witness :
    ("relay.example.com" : String) ≠ "" ∧
    parseNone (publicMaddrOf "relay.example.com") = none ∧
    (addrFactory parseNone (publicMaddrOf "relay.example.com") [()] = [()] ∧
     multiaddrResponse (publicMaddrOf "relay.example.com") "peer:AQI=" =
       publicMaddrOf "relay.example.com" ++ "/p2p/" ++ "peer:AQI=" ∧
     multiaddrResponse (publicMaddrOf "relay.example.com") "peer:AQI=" ≠
       "no-public-hostname-set") :=
  ⟨by decide, rfl,
    c10_status_ignores_parse_failure parseNone "relay.example.com" "peer:AQI="
      [()] (by decide) rfl⟩

end TorrentiumRelay
